import Mathlib

/-!
Shallow embedding of `gardenmon.py` (purplexionist/gardenmon): a sensor
sampling agent.  Pure numeric conversions are embedded over `ℚ` (Python
floats are modelled as exact rationals), machine words over `ℕ` with the
source's shift/or operations, strings over `List Char`, and fallible bus
or file reads as `Option`/`Except` values: `none` models a read whose
underlying I/O raised an exception.
-/

/-- Celsius to Fahrenheit, from `c_to_f`: `(c * 1.8) + 32`. -/
def c_to_f (c : ℚ) : ℚ := (c * 1.8) + 32

/-- Big-endian byte pair to word, as written in the drivers:
`data[0] << 8 | data[1]`. -/
def word16 (hi lo : ℕ) : ℕ := hi <<< 8 ||| lo

/-- When the low byte fits in 8 bits, `hi << 8 | lo` is `hi * 256 + lo`. -/
theorem word16_eq_add (hi lo : ℕ) (h : lo < 256) : word16 hi lo = hi * 256 + lo := by
  have key := Nat.mul_add_lt_is_or (show lo < 2 ^ 8 by omega) hi
  have hs : hi <<< 8 = 2 ^ 8 * hi := by
    rw [Nat.shiftLeft_eq, Nat.mul_comm]
  unfold word16
  rw [hs, ← key]
  omega

/-! ## Python string primitives

The soil-temperature driver manipulates the text of the `w1_slave`
device file.  Strings are embedded as `List Char`; the helpers below
model the Python operations the driver uses (`in`, `str.find`, slicing,
`float` parsing). -/

/-- First index at or after `i` where `needle` starts in the remaining
text, scanning left to right — the search underlying Python's
`str.find` and the `in` operator. -/
def findSubAux (needle : List Char) : List Char → ℕ → Option ℕ
  | [], i => if needle.isEmpty then some i else none
  | c :: rest, i =>
    if needle.isPrefixOf (c :: rest) then some i else findSubAux needle rest (i + 1)

/-- Python `hay.find(needle)`: first index of the substring, `-1` when absent. -/
def pyFind (needle hay : List Char) : ℤ :=
  match findSubAux needle hay 0 with
  | some i => (i : ℤ)
  | none => -1

/-- Python `needle in hay` (substring containment; Python defines it as
`hay.find(needle) >= 0`). -/
def containsSub (needle hay : List Char) : Bool :=
  (findSubAux needle hay 0).isSome

/-- Python `s[k:]`, including the clamping semantics of negative starts. -/
def pySliceFrom (s : List Char) (k : ℤ) : List Char :=
  if 0 ≤ k then s.drop k.toNat else s.drop (s.length - (-k).toNat)

/-- Whitespace as Python's `float`/`strip` treat it (the forms that occur
in device files). -/
def isPyWs (c : Char) : Bool := c = ' ' || c = '\n' || c = '\t' || c = '\r'

/-- Leading and trailing whitespace removed. -/
def pyStrip (s : List Char) : List Char :=
  ((s.dropWhile isPyWs).reverse.dropWhile isPyWs).reverse

/-- Decimal value of a digit string. -/
def digitsVal (l : List Char) : ℕ :=
  l.foldl (fun a c => a * 10 + (c.toNat - 48)) 0

/-- Models Python `float(...)` restricted to optionally-signed decimal
integer literals surrounded by whitespace — the only shape a 1-Wire
`t=` payload takes (Python's `float` accepts further forms, none of
which occur in these device files). -/
def parseFloatLit (s : List Char) : Option ℚ :=
  match pyStrip s with
  | '-' :: ds =>
    if ds ≠ [] ∧ ds.all Char.isDigit then some (-(digitsVal ds : ℚ)) else none
  | ds =>
    if ds ≠ [] ∧ ds.all Char.isDigit then some ((digitsVal ds : ℚ)) else none

/-- Readiness marker checked on line 0 of the device file. -/
def yesMarker : List Char := "YES".toList

/-- Marker preceding the millidegree payload on line 1 of the device file. -/
def tEqMarker : List Char := "t=".toList

/-! ## Sensor drivers

One namespace per driver class of the source.  A driver's bus or file
input is passed explicitly: `none` models the underlying I/O raising an
exception (caught only in that driver's `get_value`). -/

/-- CPU thermal-zone read, from `cpu_temp.read`: the file text parsed as
an integer (millidegrees Celsius), `none` when the file is missing,
unreadable or non-numeric. -/
def cpu_temp.read (file : Option ℤ) : Except Unit ℚ :=
  match file with
  | none => .error ()
  | some v => .ok (c_to_f ((v : ℚ) / 1000.0))

/-- Driver-boundary wrapper, from `cpu_temp.get_value`: any exception is
caught and replaced by the sentinel `99999.9`. -/
def cpu_temp.get_value (file : Option ℤ) : ℚ :=
  match cpu_temp.read file with
  | .ok v => v
  | .error _ => 99999.9

/-- Ambient temperature/humidity driver state (`aths.__init__` sets both
trims to `0.0`). -/
structure aths where
  temperature_trim : ℚ
  humidity_trim : ℚ

/-- State after `aths.__init__`. -/
def aths.init : aths := ⟨0.0, 0.0⟩

/-- One 6-byte I2C block as returned by `read_i2c_block_data(addr, 0x00, 6)`. -/
structure block6 where
  b0 : ℕ
  b1 : ℕ
  b2 : ℕ
  b3 : ℕ
  b4 : ℕ
  b5 : ℕ

/-- Ambient temperature/humidity read, from `aths.read`: bytes 0-1 are
the temperature word (CRC byte 2 ignored), bytes 3-4 the humidity word
(CRC byte 5 ignored); conversion formulas as in the source. -/
def aths.read (s : aths) (bus : Option block6) : Except Unit (ℚ × ℚ) :=
  match bus with
  | none => .error ()
  | some d =>
    let temperature_raw : ℕ := word16 d.b0 d.b1
    let humidity_raw : ℕ := word16 d.b3 d.b4
    let temperature_f : ℚ :=
      ((temperature_raw : ℚ) * 315.0) / 0xFFFF - 49 + s.temperature_trim
    let humidity_percent : ℚ :=
      ((humidity_raw : ℚ) * 100.0) / 0xFFFF + s.humidity_trim
    .ok (temperature_f, humidity_percent)

/-- Driver-boundary wrapper, from `aths.get_value`: sentinel pair
`(9999.9, 9999.9)` on any exception.  The source returns a dict with
keys `temperature` and `humidity`; it is embedded as a pair in that
order. -/
def aths.get_value (s : aths) (bus : Option block6) : ℚ × ℚ :=
  match aths.read s bus with
  | .ok v => v
  | .error _ => (9999.9, 9999.9)

/-- Error cases of `sts.read`: the explicit `RuntimeError` for an
invalid reading, a `ValueError` from `float(...)`, or an `OSError` from
`open`/`readlines`. -/
inductive stsErr where
  | invalidReading
  | parseFailure
  | ioError

/-- Soil temperature driver state (`sts.__init__` sets the trim to
`-2.2`; the 1-Wire device-path glob is construction-time I/O and is not
part of the per-read data flow). -/
structure sts where
  temperature_trim : ℚ

/-- State after `sts.__init__`. -/
def sts.init : sts := ⟨-2.2⟩

/-- Soil-temperature read, from `sts.read`.  The input is lines 0 and 1
of the `w1_slave` file (`none`: unreadable file).  Note the source's
validity check is the conjunction
`if "YES" not in lines[0] and "t=" not in lines[1]`, and there is no
re-read loop: the function reads the file once and either raises or
parses the text after the first `t=` on line 1. -/
def sts.read (s : sts) (file : Option (List Char × List Char)) : Except stsErr ℚ :=
  match file with
  | none => .error .ioError
  | some (line0, line1) =>
    if !containsSub yesMarker line0 && !containsSub tEqMarker line1 then
      .error .invalidReading
    else
      let temperature_string := pySliceFrom line1 (pyFind tEqMarker line1 + 2)
      match parseFloatLit temperature_string with
      | none => .error .parseFailure
      | some q => .ok (c_to_f (q / 1000.0) + s.temperature_trim)

/-- Driver-boundary wrapper, from `sts.get_value`: sentinel `99999.9` on
any exception. -/
def sts.get_value (s : sts) (file : Option (List Char × List Char)) : ℚ :=
  match sts.read s file with
  | .ok v => v
  | .error _ => 99999.9

/-- File-read trace of one `sts.read` call against the successive
contents the device file would show on the 1st, 2nd, … read (`[]`: the
file is unreadable).  The source performs exactly one `readlines` per
call — there is no readiness poll loop — so the call consumes the first
snapshot only; the result records (number of file reads performed,
outcome). -/
def sts.readTrace (s : sts) (snaps : List (List Char × List Char)) :
    Option (ℕ × Except stsErr ℚ) :=
  match snaps with
  | [] => none
  | snap :: _ => some (1, sts.read s (some snap))

/-- Soil moisture driver state (`sms.__init__` sets `value_trim = 0`). -/
structure sms where
  value_trim : ℤ

/-- State after `sms.__init__`. -/
def sms.init : sms := ⟨0⟩

/-- Soil-moisture read, from `sms.read`: the two bytes of the ADC block
are combined as `data[0] << 8 | data[1]` and the trim is added.  No
byte swap and no two's-complement decoding appear in the source. -/
def sms.read (s : sms) (bus : Option (ℕ × ℕ)) : Except Unit ℤ :=
  match bus with
  | none => .error ()
  | some (b0, b1) => .ok ((word16 b0 b1 : ℕ) + s.value_trim)

/-- Driver-boundary wrapper, from `sms.get_value`: sentinel `99999` on
any exception. -/
def sms.get_value (s : sms) (bus : Option (ℕ × ℕ)) : ℤ :=
  match sms.read s bus with
  | .ok v => v
  | .error _ => 99999

/-- Ambient light driver state (`als.__init__` sets `lux_trim = 0.0`). -/
structure als where
  lux_trim : ℚ

/-- State after `als.__init__`. -/
def als.init : als := ⟨0.0⟩

/-- Ambient-light read, from `als.read`: 2-byte block from register
0x10 combined big-endian, `lux = float(val)/1.2 + lux_trim`. -/
def als.read (s : als) (bus : Option (ℕ × ℕ)) : Except Unit ℚ :=
  match bus with
  | none => .error ()
  | some (b0, b1) => .ok ((word16 b0 b1 : ℚ) / 1.2 + s.lux_trim)

/-- Driver-boundary wrapper, from `als.get_value`: sentinel `99999.9` on
any exception. -/
def als.get_value (s : als) (bus : Option (ℕ × ℕ)) : ℚ :=
  match als.read s bus with
  | .ok v => v
  | .error _ => 99999.9

/-! ## Number formatting and the cycle row

`gardenmon_main` builds, once per cycle, the flat row
`[timestamp, label, value, unit, label, value, unit, ...]` handed to the
CSV writer.  Python's `f"{v:0.1f}"` and `f"{v}"` formatting is embedded
below; decimal rendering of naturals goes through Mathlib's
`Nat.digits`. -/

/-- Decimal digit `d` (0-9) as the character `'0' + d`. -/
def natDigitChar (d : ℕ) : Char := Char.ofNat (48 + d)

/-- Decimal rendering of a natural, most significant digit first (the
digits of `str(n)` in Python). -/
def natDigits (n : ℕ) : List Char :=
  if n = 0 then ['0'] else ((Nat.digits 10 n).map natDigitChar).reverse

/-- Decimal rendering of an integer, Python `str(n)` / `f"{n}"`. -/
def intDigits (v : ℤ) : List Char :=
  (if v < 0 then ['-'] else []) ++ natDigits v.natAbs

/-- Round to nearest integer, ties to even — the rounding applied by
Python's fixed-point float formatting. -/
def rne (x : ℚ) : ℤ :=
  let f := ⌊x⌋
  let r := x - f
  if r < 1 / 2 then f
  else if 1 / 2 < r then f + 1
  else if f % 2 = 0 then f else f + 1

/-- Python `f"{q:0.1f}"`: the value rounded to one decimal place and
rendered with exactly one digit after the point.  (Modelled over exact
rationals; the sign of a negative zero float is not representable and
is dropped.) -/
def fmt1 (q : ℚ) : List Char :=
  let n := rne (q * 10)
  (if n < 0 then ['-'] else [])
    ++ natDigits (n.natAbs / 10) ++ ['.', natDigitChar (n.natAbs % 10)]

/-- Fields of `datetime.datetime.now()` used by the cycle. -/
structure dateTime where
  year : ℕ
  month : ℕ
  day : ℕ
  hour : ℕ
  minute : ℕ
  second : ℕ

/-- Zero-padding to two digits, as `%m`, `%d`, `%H`, `%M`, `%S` render. -/
def pad2 (n : ℕ) : List Char :=
  if n < 10 then '0' :: natDigits n else natDigits n

/-- The cycle timestamp, from
`current_time.strftime('%Y-%m-%d %H:%M:%S')`. -/
def strftimeTs (t : dateTime) : List Char :=
  natDigits t.year ++ ['-'] ++ pad2 t.month ++ ['-'] ++ pad2 t.day ++ [' ']
    ++ pad2 t.hour ++ [':'] ++ pad2 t.minute ++ [':'] ++ pad2 t.second

/-- Every character of the list is a decimal digit. -/
def allDigits (l : List Char) : Prop := ∀ c ∈ l, c.isDigit = true

/-- A rendered number with exactly one decimal place: one digit after
the only point. -/
def oneDecimalPlace (l : List Char) : Prop :=
  ∃ pre d, l = pre ++ ['.', d] ∧ d.isDigit = true ∧ '.' ∉ pre

/-- Text of the shape `YYYY-MM-DD HH:MM:SS`: digit groups of widths
4, 2, 2, 2, 2, 2 joined by the literal separators. -/
def tsShape (l : List Char) : Prop :=
  ∃ y mo d hh mi s : List Char,
    l = y ++ '-' :: (mo ++ '-' :: (d ++ ' ' :: (hh ++ ':' :: (mi ++ ':' :: s)))) ∧
    y.length = 4 ∧ mo.length = 2 ∧ d.length = 2 ∧
    hh.length = 2 ∧ mi.length = 2 ∧ s.length = 2 ∧
    allDigits (y ++ mo ++ d ++ hh ++ mi ++ s)

/-- The per-cycle external inputs: one bus or file payload per driver,
`none` where that driver's underlying I/O raises. -/
structure cycleInputs where
  cpuFile : Option ℤ
  athsBlock : Option block6
  stsFile : Option (List Char × List Char)
  smsBlock : Option (ℕ × ℕ)
  alsBlock : Option (ℕ × ℕ)

/-- One cycle's output row, from the row-building section of
`gardenmon_main`: the timestamp, then one `label, value, unit` triple
per quantity, in source order.  Driver states are those built once at
startup (`aths.init`, `sts.init`, ...). -/
def gardenmonRow (t : dateTime) (ins : cycleInputs) : List (List Char) :=
  [strftimeTs t]
    ++ [ "CPU Temperature".toList, fmt1 (cpu_temp.get_value ins.cpuFile), "F".toList]
    ++ [ "Ambient Temperature".toList,
         fmt1 (aths.get_value aths.init ins.athsBlock).1, "F".toList]
    ++ [ "Ambient Humidity".toList,
         fmt1 (aths.get_value aths.init ins.athsBlock).2, "%".toList]
    ++ [ "Soil Temperature".toList,
         fmt1 (sts.get_value sts.init ins.stsFile), "F".toList]
    ++ [ "Soil Moisture Value".toList,
         intDigits (sms.get_value sms.init ins.smsBlock), "decimal_value".toList]
    ++ [ "Ambient Light".toList,
         fmt1 (als.get_value als.init ins.alsBlock), "lx".toList]

/-! ## Helper lemmas on rendering -/

/-- Digit characters render digits. -/
theorem natDigitChar_isDigit : ∀ d < 10, (natDigitChar d).isDigit = true := by decide

/-- Every character of a rendered natural is a decimal digit. -/
theorem natDigits_isDigit (n : ℕ) : ∀ c ∈ natDigits n, c.isDigit = true := by
  intro c hc
  unfold natDigits at hc
  split at hc
  · simp at hc
    subst hc
    decide
  · simp only [List.mem_reverse, List.mem_map] at hc
    obtain ⟨d, hd, rfl⟩ := hc
    exact natDigitChar_isDigit d (Nat.digits_lt_base (by norm_num) hd)

/-- Width of a rendered nonzero natural. -/
theorem natDigits_length (n : ℕ) (hn : n ≠ 0) :
    (natDigits n).length = Nat.log 10 n + 1 := by
  unfold natDigits
  rw [if_neg hn]
  simp [Nat.digits_len 10 n (by norm_num) hn]

/-- A four-digit year renders to four characters. -/
theorem natDigits_len4 (n : ℕ) (h1 : 1000 ≤ n) (h2 : n < 10000) :
    (natDigits n).length = 4 := by
  rw [natDigits_length n (by omega)]
  have : Nat.log 10 n = 3 :=
    Nat.log_eq_of_pow_le_of_lt_pow (by norm_num; omega) (by norm_num; omega)
  omega

/-- Values below 100 render to at most two characters. -/
theorem natDigits_len_le2 (n : ℕ) (h : n < 100) : (natDigits n).length ≤ 2 := by
  by_cases hn : n = 0
  · subst hn; simp [natDigits]
  · rw [natDigits_length n hn]
    have := Nat.log_lt_of_lt_pow hn (show n < 10 ^ 2 by norm_num; omega)
    omega

/-- Values below 10 render to one character. -/
theorem natDigits_len1 (n : ℕ) (h : n < 10) : (natDigits n).length = 1 := by
  by_cases hn : n = 0
  · subst hn; simp [natDigits]
  · rw [natDigits_length n hn]
    have : Nat.log 10 n = 0 := Nat.log_eq_zero_iff.mpr (Or.inl h)
    omega

/-- Zero-padded two-digit fields have width two. -/
theorem pad2_length (n : ℕ) (h : n < 100) : (pad2 n).length = 2 := by
  unfold pad2
  split
  · simp [natDigits_len1 n (by omega)]
  · have h2 := natDigits_len_le2 n h
    by_cases hn : n = 0
    · omega
    · rw [natDigits_length n hn] at h2 ⊢
      have : Nat.log 10 n ≠ 0 := by
        intro h0
        rcases Nat.log_eq_zero_iff.mp h0 with hlt | hb
        · omega
        · omega
      omega

/-- Zero-padded fields contain only digits. -/
theorem pad2_isDigit (n : ℕ) : ∀ c ∈ pad2 n, c.isDigit = true := by
  intro c hc
  unfold pad2 at hc
  split at hc
  · rcases hc with _ | hc
    · decide
    · exact natDigits_isDigit n c (by assumption)
  · exact natDigits_isDigit n c hc

/-- Fixed-point rendering always shows exactly one decimal place. -/
theorem fmt1_oneDecimalPlace (q : ℚ) : oneDecimalPlace (fmt1 q) := by
  refine ⟨(if rne (q * 10) < 0 then ['-'] else [])
      ++ natDigits ((rne (q * 10)).natAbs / 10),
    natDigitChar ((rne (q * 10)).natAbs % 10), ?_, ?_, ?_⟩
  · simp [fmt1]
  · exact natDigitChar_isDigit _ (Nat.mod_lt _ (by norm_num))
  · intro hmem
    rw [List.mem_append] at hmem
    rcases hmem with h | h
    · split at h <;> simp_all
    · have := natDigits_isDigit _ _ h
      simp [Char.isDigit] at this

/-- Rendering a nonnegative integer uses digits only (no sign, no point). -/
theorem intDigits_allDigits (v : ℤ) (h : 0 ≤ v) : allDigits (intDigits v) := by
  intro c hc
  unfold intDigits at hc
  rw [if_neg (by omega)] at hc
  simpa using natDigits_isDigit _ _ (by simpa using hc)

/-- The soil-moisture value is never negative: a successful read is a
nonnegative word plus the zero trim, and the sentinel is positive. -/
theorem sms_get_value_nonneg (bus : Option (ℕ × ℕ)) :
    0 ≤ sms.get_value sms.init bus := by
  rcases bus with _ | ⟨b0, b1⟩
  · norm_num [sms.get_value, sms.read]
  · simp [sms.get_value, sms.read, sms.init]

/-- Modelled from the spec: the `UnitConversion` helper
`swap_byte_order_16(x: uint16) -> uint16`, "swaps high/low byte of a
16-bit word".  The helper is described in the spec but absent from the
repository's single source file. -/
def swap_byte_order_16 (x : ℕ) : ℕ := (x % 256) * 256 + x / 256

/-- Modelled from the spec: the `UnitConversion` helper
`decode_twos_complement_16(raw: uint16) -> int32`, "if bit 15 set,
`raw - 65536`, else `raw` unchanged".  Absent from the repository's
single source file. -/
def decode_twos_complement_16 (raw : ℕ) : ℤ :=
  if raw.testBit 15 then (raw : ℤ) - 65536 else raw

/-- The soil-moisture read as claim C3 describes it: conversion word
byte-swapped, decoded as two's-complement signed 16-bit, plus the trim
offset 4800.  Stated from the spec's words, for comparison with
`sms.read` (the source). -/
def sms_read_spec (b0 b1 : ℕ) : ℤ :=
  decode_twos_complement_16 (swap_byte_order_16 (word16 b0 b1)) + 4800

/-- The timestamp the cycle emits has the `YYYY-MM-DD HH:MM:SS` shape
whenever the datetime fields are in their calendar ranges. -/
theorem strftimeTs_shape (t : dateTime) (hy1 : 1000 ≤ t.year) (hy2 : t.year < 10000)
    (hmo : t.month < 100) (hd : t.day < 100) (hh : t.hour < 100)
    (hmi : t.minute < 100) (hs : t.second < 100) : tsShape (strftimeTs t) := by
  refine ⟨natDigits t.year, pad2 t.month, pad2 t.day, pad2 t.hour, pad2 t.minute,
    pad2 t.second, ?_, natDigits_len4 _ hy1 hy2, pad2_length _ hmo, pad2_length _ hd,
    pad2_length _ hh, pad2_length _ hmi, pad2_length _ hs, ?_⟩
  · simp [strftimeTs]
  · intro c hc
    simp only [List.mem_append] at hc
    rcases hc with ((((h | h) | h) | h) | h) | h
    · exact natDigits_isDigit _ _ h
    all_goals exact pad2_isDigit _ _ h

/-! ## Claim theorems -/

/-- C8: `swap_byte_order_16` swaps the high and low bytes of a 16-bit
word: `swap_byte_order_16 0x1234 = 0x3412`, and the swap is an
involution on every 16-bit value. -/
theorem c8_swap_byte_order_involution :
    swap_byte_order_16 0x1234 = 0x3412 ∧
    ∀ x : ℕ, x < 65536 → swap_byte_order_16 (swap_byte_order_16 x) = x := by
  constructor
  · decide
  · intro x hx
    unfold swap_byte_order_16
    omega

/-- Witness for C8 at the concrete word `0xABCD`. -/
theorem c8_swap_byte_order_involution_witness :
    (0xABCD : ℕ) < 65536 ∧ swap_byte_order_16 (swap_byte_order_16 0xABCD) = 0xABCD :=
  ⟨by decide, c8_swap_byte_order_involution.2 0xABCD (by decide)⟩

/-- C10: every successful soil-moisture read of a 2-byte bus response
with each byte in 0..255 returns the big-endian combination of the two
bytes plus the constructed trim 0: a value in 0..65535, never negative,
with no sign decoding. -/
theorem c10_sms_read_range : ∀ b0 b1 : ℕ, b0 < 256 → b1 < 256 →
    sms.read sms.init (some (b0, b1)) = .ok ((b0 : ℤ) * 256 + b1) ∧
    0 ≤ (b0 : ℤ) * 256 + b1 ∧ (b0 : ℤ) * 256 + b1 ≤ 65535 ∧
    sms.init.value_trim = 0 := by
  intro b0 b1 h0 h1
  refine ⟨?_, by positivity, by omega, rfl⟩
  simp only [sms.read, sms.init, word16_eq_add b0 b1 h1]
  push_cast
  ring_nf

/-- Witness for C10 at the all-ones response `(0xFF, 0xFF)`. -/
theorem c10_sms_read_range_witness :
    (0xFF : ℕ) < 256 ∧
    (sms.read sms.init (some (0xFF, 0xFF)) = .ok ((0xFF : ℤ) * 256 + 0xFF) ∧
     0 ≤ (0xFF : ℤ) * 256 + 0xFF ∧ (0xFF : ℤ) * 256 + 0xFF ≤ 65535 ∧
     sms.init.value_trim = 0) :=
  ⟨by decide, c10_sms_read_range 0xFF 0xFF (by decide) (by decide)⟩

/-- C3 counterexample: on the bus response `(0x12, 0x34)` the source's
soil-moisture read returns the plain big-endian word 4660, not the
byte-swapped, sign-decoded, 4800-trimmed value 18130 the claim
describes. -/
theorem c3_sms_counterexample :
    sms.read sms.init (some (0x12, 0x34)) = .ok 4660 ∧
    sms_read_spec 0x12 0x34 = 18130 ∧
    sms.read sms.init (some (0x12, 0x34)) ≠ .ok (sms_read_spec 0x12 0x34) := by
  have h1 : sms.read sms.init (some (0x12, 0x34)) = .ok 4660 := by
    simp only [sms.read, sms.init]
    norm_num
    decide
  have h2 : sms_read_spec 0x12 0x34 = 18130 := by decide
  refine ⟨h1, h2, ?_⟩
  rw [h1, h2]
  simp

/-- C3 amended: the soil-moisture read applies no byte swap and no
two's-complement decoding; it returns the big-endian combination of the
two bytes plus the constructed trim offset 0, a nonnegative raw code. -/
theorem c3_sms_amended : ∀ b0 b1 : ℕ, b0 < 256 → b1 < 256 →
    sms.read sms.init (some (b0, b1)) = .ok ((b0 : ℤ) * 256 + b1) ∧
    sms.init.value_trim = 0 ∧ 0 ≤ (b0 : ℤ) * 256 + b1 := by
  intro b0 b1 h0 h1
  refine ⟨?_, rfl, by positivity⟩
  simp only [sms.read, sms.init, word16_eq_add b0 b1 h1]
  push_cast
  ring_nf

/-- Witness for the amended C3 at `(0x80, 0x00)`: the word that a
two's-complement decode would make negative stays 32768. -/
theorem c3_sms_amended_witness :
    (0x80 : ℕ) < 256 ∧
    (sms.read sms.init (some (0x80, 0x00)) = .ok ((0x80 : ℤ) * 256 + 0x00) ∧
     sms.init.value_trim = 0 ∧ 0 ≤ (0x80 : ℤ) * 256 + 0x00) :=
  ⟨by decide, c3_sms_amended 0x80 0x00 (by decide) (by decide)⟩

/-- C4 counterexample: when the thermal-zone file is unreadable the CPU
driver substitutes 99999.9, which is not the claimed 9999.9. -/
theorem c4_cpu_sentinel_counterexample :
    cpu_temp.get_value none = 99999.9 ∧ (99999.9 : ℚ) ≠ 9999.9 ∧
    cpu_temp.get_value none ≠ 9999.9 := by
  have h1 : cpu_temp.get_value none = 99999.9 := rfl
  have h2 : (99999.9 : ℚ) ≠ 9999.9 := by norm_num
  exact ⟨h1, h2, h1 ▸ h2⟩

/-- C4 amended: for every read of the CPU temperature driver in which
the thermal-zone file is missing or unreadable, the caller-facing value
substituted is the sentinel 99999.9. -/
theorem c4_cpu_sentinel : ∀ file : Option ℤ,
    cpu_temp.read file = .error () → cpu_temp.get_value file = 99999.9 := by
  intro file h
  unfold cpu_temp.get_value
  rw [h]

/-- Witness for the amended C4: the unreadable-file case. -/
theorem c4_cpu_sentinel_witness :
    cpu_temp.read none = .error () ∧ cpu_temp.get_value none = 99999.9 :=
  ⟨rfl, c4_cpu_sentinel none rfl⟩

/-- C5: the ambient temperature/humidity conversion, for every 6-byte
block: raws are the big-endian words of bytes 0-1 and 3-4 (CRC bytes 2
and 5 ignored), with the source's conversion formulas; at raw
`(0x7FFF, 0x7FFF)` and zero trim the outputs are within 0.01 of 108.5 °F
and 50.0 %. -/
theorem c5_aths_conversion : ∀ (d : block6) (tt ht : ℚ),
    d.b0 < 256 → d.b1 < 256 → d.b3 < 256 → d.b4 < 256 →
    aths.read ⟨tt, ht⟩ (some d) =
      .ok ((((d.b0 * 256 + d.b1 : ℕ) : ℚ) * 315) / 65535 - 49 + tt,
           (((d.b3 * 256 + d.b4 : ℕ) : ℚ) * 100) / 65535 + ht) ∧
    |(aths.get_value aths.init (some ⟨0x7F, 0xFF, 0, 0x7F, 0xFF, 0⟩)).1 - 108.5| < 1 / 100 ∧
    |(aths.get_value aths.init (some ⟨0x7F, 0xFF, 0, 0x7F, 0xFF, 0⟩)).2 - 50| < 1 / 100 := by
  intro d tt ht h0 h1 h3 h4
  have hw : word16 0x7F 0xFF = 0x7FFF := by decide
  have hval : aths.get_value aths.init (some ⟨0x7F, 0xFF, 0, 0x7F, 0xFF, 0⟩) =
      (((32767 : ℚ) * 315) / 65535 - 49, ((32767 : ℚ) * 100) / 65535) := by
    simp [aths.get_value, aths.read, aths.init, hw]
    norm_num
  refine ⟨?_, ?_, ?_⟩
  · simp only [aths.read, word16_eq_add d.b0 d.b1 h1, word16_eq_add d.b3 d.b4 h4]
    norm_num
  · rw [hval]
    rw [abs_sub_lt_iff]
    constructor <;> norm_num
  · rw [hval]
    rw [abs_sub_lt_iff]
    constructor <;> norm_num

/-- Witness for C5 at the block `(0x7F, 0xFF, 0x00, 0x7F, 0xFF, 0x00)`
with zero trims. -/
theorem c5_aths_conversion_witness :
    (0x7F : ℕ) < 256 ∧ (0xFF : ℕ) < 256 ∧
    aths.read ⟨0, 0⟩ (some ⟨0x7F, 0xFF, 0, 0x7F, 0xFF, 0⟩) =
      .ok ((((0x7F * 256 + 0xFF : ℕ) : ℚ) * 315) / 65535 - 49 + 0,
           (((0x7F * 256 + 0xFF : ℕ) : ℚ) * 100) / 65535 + 0) ∧
    |(aths.get_value aths.init (some ⟨0x7F, 0xFF, 0, 0x7F, 0xFF, 0⟩)).1 - 108.5| < 1 / 100 :=
  have h := c5_aths_conversion ⟨0x7F, 0xFF, 0, 0x7F, 0xFF, 0⟩ 0 0
    (by decide) (by decide) (by decide) (by decide)
  ⟨by decide, by decide, h.1, h.2.1⟩

/-- C6: a successful soil-temperature read parses the number after the
first `t=` of line 1, divides by 1000, converts Celsius to Fahrenheit
and adds the constructed trim, which is -2.2. -/
theorem c6_sts_value : ∀ (l0 l1 : List Char) (i : ℕ) (n : ℚ),
    findSubAux tEqMarker l1 0 = some i →
    parseFloatLit (pySliceFrom l1 ((i : ℤ) + 2)) = some n →
    sts.read sts.init (some (l0, l1)) =
      .ok (c_to_f (n / 1000.0) + sts.init.temperature_trim) ∧
    sts.init.temperature_trim = -2.2 := by
  intro l0 l1 i n hfind hparse
  have hcontains : containsSub tEqMarker l1 = true := by
    unfold containsSub
    rw [hfind]
    rfl
  have hpf : pyFind tEqMarker l1 = (i : ℤ) := by
    unfold pyFind
    rw [hfind]
  refine ⟨?_, rfl⟩
  unfold sts.read
  dsimp only
  rw [hcontains, hpf]
  simp [hparse]

/-- Witness for C6 on the line `t=21500`: 21.5 °C parsed, converted and
trimmed. -/
theorem c6_sts_value_witness :
    findSubAux tEqMarker ("t=21500".toList) 0 = some 0 ∧
    parseFloatLit (pySliceFrom ("t=21500".toList) ((0 : ℤ) + 2)) = some ((21500 : ℕ) : ℚ) ∧
    (sts.read sts.init (some ("YES".toList, "t=21500".toList)) =
      .ok (c_to_f (((21500 : ℕ) : ℚ) / 1000.0) + sts.init.temperature_trim) ∧
     sts.init.temperature_trim = -2.2) :=
  ⟨rfl, rfl, c6_sts_value ("YES".toList) ("t=21500".toList) 0 ((21500 : ℕ) : ℚ) rfl rfl⟩

/-- C9: the soil-temperature invalid-reading error fires exactly when
line 0 lacks `YES` AND line 1 lacks `t=` (the source's check is a
conjunction); when line 0 is not ready but line 1 carries a parsable
`t=` payload, the read returns a value with no error. -/
theorem c9_sts_conjunction_check : ∀ (s : sts) (l0 l1 : List Char) (n : ℚ),
    (sts.read s (some (l0, l1)) = .error .invalidReading ↔
      containsSub yesMarker l0 = false ∧ containsSub tEqMarker l1 = false) ∧
    (containsSub yesMarker l0 = false → containsSub tEqMarker l1 = true →
      parseFloatLit (pySliceFrom l1 (pyFind tEqMarker l1 + 2)) = some n →
      sts.read s (some (l0, l1)) = .ok (c_to_f (n / 1000.0) + s.temperature_trim)) := by
  intro s l0 l1 n
  constructor
  · unfold sts.read
    dsimp only
    rcases hy : containsSub yesMarker l0 <;> rcases ht : containsSub tEqMarker l1 <;>
      simp only [Bool.not_true, Bool.not_false, Bool.and_true, Bool.and_false,
        Bool.true_and, Bool.false_and, if_true, if_false]
    · rcases hp : parseFloatLit (pySliceFrom l1 (pyFind tEqMarker l1 + 2)) <;> simp
    · rcases hp : parseFloatLit (pySliceFrom l1 (pyFind tEqMarker l1 + 2)) <;> simp
    · rcases hp : parseFloatLit (pySliceFrom l1 (pyFind tEqMarker l1 + 2)) <;> simp
    · rcases hp : parseFloatLit (pySliceFrom l1 (pyFind tEqMarker l1 + 2)) <;> simp
  · intro hy ht hp
    unfold sts.read
    dsimp only
    rw [hy, ht]
    simp [hp]

/-- Witness for C9: line 0 reads `NO`, line 1 carries `t=21500`; the
read succeeds with no retry and no error. -/
theorem c9_sts_conjunction_check_witness :
    containsSub yesMarker ("crc=4e NO".toList) = false ∧
    containsSub tEqMarker ("t=21500".toList) = true ∧
    parseFloatLit (pySliceFrom ("t=21500".toList)
      (pyFind tEqMarker ("t=21500".toList) + 2)) = some ((21500 : ℕ) : ℚ) ∧
    sts.read sts.init (some ("crc=4e NO".toList, "t=21500".toList)) =
      .ok (c_to_f (((21500 : ℕ) : ℚ) / 1000.0) + sts.init.temperature_trim) :=
  ⟨by decide, by decide, rfl,
    (c9_sts_conjunction_check sts.init ("crc=4e NO".toList) ("t=21500".toList)
      ((21500 : ℕ) : ℚ)).2 (by decide) (by decide) rfl⟩

/-- A `w1_slave` whose readiness line shows `NO` while line 1 already
carries a `t=` payload. -/
def snapNotReady : List Char × List Char := ("crc=da NO".toList, "t=25000".toList)

/-- The same file one read later, now showing `YES`. -/
def snapReady : List Char × List Char := ("crc=da YES".toList, "t=25000".toList)

/-- C2 counterexample: against a device file whose first read shows `NO`
and second shows `YES`, the soil-temperature driver performs exactly one
file read — not the two the claim requires — and returns a parsed value
from that first, not-ready snapshot. -/
theorem c2_sts_no_retry_counterexample :
    (sts.readTrace sts.init [snapNotReady, snapReady]).map Prod.fst = some 1 ∧
    sts.readTrace sts.init [snapNotReady, snapReady] =
      some (1, .ok (c_to_f (((25000 : ℕ) : ℚ) / 1000.0) + sts.init.temperature_trim)) ∧
    (1 : ℕ) ≠ 2 :=
  ⟨rfl, rfl, by norm_num⟩

/-- C2 amended: the soil-temperature driver performs no readiness
poll-retry at all: every read call consumes exactly one file snapshot,
whatever its contents, and the outcome is decided by that first
snapshot alone — on the NO-then-YES file it parses and returns from the
single not-ready read. -/
theorem c2_sts_single_read :
    (∀ (s : sts) (snap : List Char × List Char) (rest : List (List Char × List Char)),
      sts.readTrace s (snap :: rest) = some (1, sts.read s (some snap))) ∧
    sts.readTrace sts.init [snapNotReady, snapReady] =
      some (1, .ok (c_to_f (((25000 : ℕ) : ℚ) / 1000.0) + sts.init.temperature_trim)) :=
  ⟨fun _ _ _ => rfl, rfl⟩

/-- C1: driver failures are isolated.  For every cycle and every
combination of per-driver inputs, the row keeps its full width of 19
cells, each value cell is a function of its own driver's input alone
(so no failure elsewhere can change it), and each driver's read error is
absorbed inside its `get_value` into that driver's fixed sentinel. -/
theorem c1_fault_isolation : ∀ (t : dateTime) (ins : cycleInputs),
    (gardenmonRow t ins).length = 19 ∧
    ((gardenmonRow t ins)[2]? = some (fmt1 (cpu_temp.get_value ins.cpuFile)) ∧
     (gardenmonRow t ins)[5]? = some (fmt1 (aths.get_value aths.init ins.athsBlock).1) ∧
     (gardenmonRow t ins)[8]? = some (fmt1 (aths.get_value aths.init ins.athsBlock).2) ∧
     (gardenmonRow t ins)[11]? = some (fmt1 (sts.get_value sts.init ins.stsFile)) ∧
     (gardenmonRow t ins)[14]? = some (intDigits (sms.get_value sms.init ins.smsBlock)) ∧
     (gardenmonRow t ins)[17]? = some (fmt1 (als.get_value als.init ins.alsBlock))) ∧
    (cpu_temp.read ins.cpuFile = .error () →
      cpu_temp.get_value ins.cpuFile = 99999.9) ∧
    (aths.read aths.init ins.athsBlock = .error () →
      aths.get_value aths.init ins.athsBlock = (9999.9, 9999.9)) ∧
    (∀ e, sts.read sts.init ins.stsFile = .error e →
      sts.get_value sts.init ins.stsFile = 99999.9) ∧
    (sms.read sms.init ins.smsBlock = .error () →
      sms.get_value sms.init ins.smsBlock = 99999) ∧
    (als.read als.init ins.alsBlock = .error () →
      als.get_value als.init ins.alsBlock = 99999.9) := by
  intro t ins
  refine ⟨rfl, ⟨rfl, rfl, rfl, rfl, rfl, rfl⟩, ?_, ?_, ?_, ?_, ?_⟩
  · intro h
    unfold cpu_temp.get_value
    rw [h]
  · intro h
    unfold aths.get_value
    rw [h]
  · intro e h
    unfold sts.get_value
    rw [h]
  · intro h
    unfold sms.get_value
    rw [h]
  · intro h
    unfold als.get_value
    rw [h]

/-- Witness for C1 on the cycle in which every one of the five drivers
fails: the row is still full-width and every driver reports its
sentinel. -/
theorem c1_fault_isolation_witness :
    (gardenmonRow ⟨2024, 5, 6, 7, 8, 9⟩ ⟨none, none, none, none, none⟩).length = 19 ∧
    cpu_temp.get_value none = 99999.9 ∧
    aths.get_value aths.init none = (9999.9, 9999.9) ∧
    sts.get_value sts.init none = 99999.9 ∧
    sms.get_value sms.init none = 99999 ∧
    als.get_value als.init none = 99999.9 :=
  have h := c1_fault_isolation ⟨2024, 5, 6, 7, 8, 9⟩ ⟨none, none, none, none, none⟩
  ⟨h.1, h.2.2.1 rfl, h.2.2.2.1 rfl, h.2.2.2.2.1 .ioError rfl,
    h.2.2.2.2.2.1 rfl, h.2.2.2.2.2.2 rfl⟩

/-- C7: the cycle's output row is the timestamp (shaped
`YYYY-MM-DD HH:MM:SS` for in-range datetime fields) followed by the six
`label, value, unit` triples in the fixed source order, every
floating-point quantity rendered with exactly one decimal place and the
raw moisture ADC code rendered as a plain unsigned integer. -/
theorem c7_row_format : ∀ (t : dateTime) (ins : cycleInputs),
    1000 ≤ t.year → t.year < 10000 → t.month < 100 → t.day < 100 →
    t.hour < 100 → t.minute < 100 → t.second < 100 →
    gardenmonRow t ins =
      [strftimeTs t,
       "CPU Temperature".toList, fmt1 (cpu_temp.get_value ins.cpuFile), "F".toList,
       "Ambient Temperature".toList,
       fmt1 (aths.get_value aths.init ins.athsBlock).1, "F".toList,
       "Ambient Humidity".toList,
       fmt1 (aths.get_value aths.init ins.athsBlock).2, "%".toList,
       "Soil Temperature".toList,
       fmt1 (sts.get_value sts.init ins.stsFile), "F".toList,
       "Soil Moisture Value".toList,
       intDigits (sms.get_value sms.init ins.smsBlock), "decimal_value".toList,
       "Ambient Light".toList,
       fmt1 (als.get_value als.init ins.alsBlock), "lx".toList] ∧
    tsShape (strftimeTs t) ∧
    oneDecimalPlace (fmt1 (cpu_temp.get_value ins.cpuFile)) ∧
    oneDecimalPlace (fmt1 (aths.get_value aths.init ins.athsBlock).1) ∧
    oneDecimalPlace (fmt1 (aths.get_value aths.init ins.athsBlock).2) ∧
    oneDecimalPlace (fmt1 (sts.get_value sts.init ins.stsFile)) ∧
    oneDecimalPlace (fmt1 (als.get_value als.init ins.alsBlock)) ∧
    allDigits (intDigits (sms.get_value sms.init ins.smsBlock)) := by
  intro t ins hy1 hy2 hmo hd hh hmi hs
  exact ⟨rfl, strftimeTs_shape t hy1 hy2 hmo hd hh hmi hs,
    fmt1_oneDecimalPlace _, fmt1_oneDecimalPlace _, fmt1_oneDecimalPlace _,
    fmt1_oneDecimalPlace _, fmt1_oneDecimalPlace _,
    intDigits_allDigits _ (sms_get_value_nonneg ins.smsBlock)⟩

/-- Witness for C7 at a concrete cycle (2024-10-12 01:02:03, all drivers
failing): timestamp shape, one-decimal formatting and plain-integer
moisture rendering hold. -/
theorem c7_row_format_witness :
    (1000 ≤ 2024 ∧ (2024 : ℕ) < 10000 ∧ (10 : ℕ) < 100) ∧
    tsShape (strftimeTs ⟨2024, 10, 12, 1, 2, 3⟩) ∧
    oneDecimalPlace (fmt1 (cpu_temp.get_value none)) ∧
    allDigits (intDigits (sms.get_value sms.init none)) :=
  have h := c7_row_format ⟨2024, 10, 12, 1, 2, 3⟩ ⟨none, none, none, none, none⟩
    (by norm_num) (by norm_num) (by norm_num) (by norm_num)
    (by norm_num) (by norm_num) (by norm_num)
  ⟨⟨by norm_num, by norm_num, by norm_num⟩, h.2.1, h.2.2.1, h.2.2.2.2.2.2.2⟩
